import Mathlib

/-!
Verification of the concurrent multi-dataset query execution engine:
a shallow embedding of the Python sources
(`app/services/weighting_service.py`, `app/services/parallel_query_executor.py`,
`server.py`, `app/mcp_server.py`) together with theorems settling the
frozen claims about batch invariants, failure isolation, row-cap
injection, query-safety validation, column detection and NCCS merging.

External effects (the metadata database, credential decryption, asyncpg
pools, psycopg2 connections, wall-clock time, `sqlparse`) are modelled as
explicit environment records; the Python control flow and all pure string
and row computations are translated directly.
-/

/-! ## Python string primitives (ASCII fragment)

The sources only ever compare against ASCII literals (`'SELECT'`,
`'LIMIT'`, `'A1'`, keyword lists, pattern lists), so `str.upper`,
`str.lower`, `str.strip`, `str.rstrip` and the `in` substring test are
modelled on the ASCII fragment, structurally recursive so that the kernel
can evaluate them. -/

/-- ASCII uppercasing of a single character (`str.upper`). -/
def upChar (c : Char) : Char :=
  if 'a' ≤ c ∧ c ≤ 'z' then Char.ofNat (c.toNat - 32) else c

/-- ASCII lowercasing of a single character (`str.lower`). -/
def downChar (c : Char) : Char :=
  if 'A' ≤ c ∧ c ≤ 'Z' then Char.ofNat (c.toNat + 32) else c

/-- Python `s.upper()`. -/
def pyUpper (s : String) : String := String.mk (s.toList.map upChar)

/-- Python `s.lower()`. -/
def pyLower (s : String) : String := String.mk (s.toList.map downChar)

/-- The ASCII whitespace characters stripped by Python `str.strip()`. -/
def pyIsSpace (c : Char) : Bool :=
  c == ' ' || c == '\t' || c == '\n' || c == '\r' || c == '\x0b' || c == '\x0c'

/-- Python `s.strip()`. -/
def pyStrip (s : String) : String :=
  String.mk (((s.toList.dropWhile pyIsSpace).reverse.dropWhile pyIsSpace).reverse)

/-- Python `s.rstrip()`. -/
def pyRstrip (s : String) : String :=
  String.mk ((s.toList.reverse.dropWhile pyIsSpace).reverse)

/-- Python `s.rstrip(';')`. -/
def rstripSemis (s : String) : String :=
  String.mk ((s.toList.reverse.dropWhile (· == ';')).reverse)

/-- Python `needle in hay` (substring containment). -/
def pyIn (needle hay : String) : Bool :=
  let n := needle.toList
  let h := hay.toList
  (List.range (h.length + 1)).any fun i => n.isPrefixOf (h.drop i)

/-- Python `s.startswith(p)`. -/
def pyStartsWith (s p : String) : Bool := p.toList.isPrefixOf s.toList

/-- The `postgres://` → `postgresql://` normalisation applied to every
decrypted connection string before use (`server.py`,
`parallel_query_executor.py`, `app/database.py`): guarded by
`startswith('postgres://')`, so `replace(..., 1)` rewrites the prefix;
`"postgres://"` has 11 characters. -/
def normalizeScheme (cs : String) : String :=
  if pyStartsWith cs "postgres://" then
    "postgresql://" ++ String.mk (cs.toList.drop 11)
  else cs

/-! ## Python values and result rows

Query result rows are Python dicts mapping column names to values; they
are modelled as ordered association lists (dict keys are unique and
insertion-ordered, which the embedding inherits from the column list used
to build each row). -/

/-- The fragment of Python values the engine inspects: `None`, strings and
integers (numeric cell values).  -/
inductive PyValue where
  | vNone
  | vStr (s : String)
  | vInt (n : Int)
deriving DecidableEq, Repr

/-- Python `str(v)`. -/
def pyStr : PyValue → String
  | .vNone => "None"
  | .vStr s => s
  | .vInt n => toString n

/-- Python truthiness of a value (`if nccs_value:`). -/
def pyTruthy : PyValue → Bool
  | .vNone => false
  | .vStr s => !(s == "")
  | .vInt n => !(n == 0)

/-- Python truthiness of an `Optional[str]` (`if nccs_column and ...`). -/
def optTruthy : Option String → Bool
  | none => false
  | some s => !(s == "")

/-- A result row: an ordered column → value mapping (a Python dict). -/
abbrev Row := List (String × PyValue)

/-- Python `row.get(k)` distinguished from membership: `none` when the key
is absent. -/
def rowGet (r : Row) (k : String) : Option PyValue :=
  (r.find? (fun p => p.1 == k)).map (·.2)

/-- Python `k in row` (dict membership). -/
def rowHasKey (r : Row) (k : String) : Bool :=
  r.any (fun p => p.1 == k)

/-- Python `row[k] = v` for a key already present: rewrite the value at
`k`, leaving every other entry untouched. -/
def rowSet (r : Row) (k : String) (v : PyValue) : Row :=
  r.map (fun p => if p.1 == k then (p.1, v) else p)

/-! ## Embedding of app/services/weighting_service.py -/

namespace WeightingService

/-- Source list `WeightingService.WEIGHT_PATTERNS`. -/
def WEIGHT_PATTERNS : List String :=
  ["weight", "wt", "sample_weight", "user_weight", "respondent_weight",
   "panel_weight", "projection_weight"]

/-- Source list `WeightingService.NCCS_PATTERNS`. -/
def NCCS_PATTERNS : List String :=
  ["nccs", "sec", "socio_economic_class", "socioeconomic_class",
   "economic_class"]

/-- Common body of `detect_weight_column` / `detect_nccs_column`: for each
pattern in priority order, scan the columns in result order and return the
first whose lowercased name contains the pattern, original casing kept. -/
def detect_column (patterns : List String) (columns : List String) : Option String :=
  match patterns with
  | [] => none
  | p :: ps =>
    match columns.find? (fun col => pyIn p (pyLower col)) with
    | some col => some col
    | none => detect_column ps columns

/-- Source method `WeightingService.detect_weight_column`. -/
def detect_weight_column (columns : List String) : Option String :=
  detect_column WEIGHT_PATTERNS columns

/-- Source method `WeightingService.detect_nccs_column`. -/
def detect_nccs_column (columns : List String) : Option String :=
  detect_column NCCS_PATTERNS columns

/-- Source method `WeightingService.is_aggregated_query`. -/
def is_aggregated_query (query : String) : Bool :=
  let query_upper := pyUpper query
  if pyIn "GROUP BY" query_upper then true
  else
    ["COUNT(", "SUM(", "AVG(", "MIN(", "MAX(", "STDDEV(", "VARIANCE("].any
      (fun func => pyIn func query_upper)

/-- Source method `WeightingService.should_apply_5_row_limit`: returns
`(should_limit, is_raw_data)`. -/
def should_apply_5_row_limit (query : String) (row_count : Nat) : Bool × Bool :=
  let is_raw := !is_aggregated_query query
  (is_raw && decide (row_count > 5), is_raw)

/-- Loop body of `WeightingService.apply_nccs_merging`: rewrite one row's
segment value (`A1 → A`, `C`/`D`/`E` → `C/D/E`), comparing on the
trimmed, uppercased string form, writing back the fixed replacement. -/
def mergeRow (nccs_column : String) (row : Row) : Row :=
  let nccs_value := (rowGet row nccs_column).getD PyValue.vNone
  if pyTruthy nccs_value then
    let nccs_str := pyUpper (pyStrip (pyStr nccs_value))
    if nccs_str == "A1" then rowSet row nccs_column (PyValue.vStr "A")
    else if nccs_str == "C" || nccs_str == "D" || nccs_str == "E" then
      rowSet row nccs_column (PyValue.vStr "C/D/E")
    else row
  else row

/-- Source method `WeightingService.apply_nccs_merging`: identity when the row list is
empty or the segment column is not a key of the first row; otherwise the
in-place merge over every row. -/
def apply_nccs_merging (rows : List Row) (nccs_column : String) : List Row :=
  match rows with
  | [] => rows
  | first :: _ =>
    if !(rowHasKey first nccs_column) then rows
    else rows.map (mergeRow nccs_column)

end WeightingService

/-! ## Embedding of validate_query (server.py lines 142–159; the identical
function appears in app/mcp_server.py lines 23–40)

`sqlparse.parse` is external; it is modelled as a function producing the
list of `statement.get_type()` strings, one per parsed statement. -/

/-- Constant `ALLOWED_STATEMENTS` (both server modules). -/
def ALLOWED_STATEMENTS : List String := ["SELECT"]

/-- The `dangerous` keyword list inside `validate_query`. -/
def dangerousKeywords : List String :=
  ["DROP", "DELETE", "UPDATE", "INSERT", "ALTER", "CREATE", "TRUNCATE"]

/-- The inner `for keyword in dangerous` scan: first listed keyword that
occurs in the uppercased raw text. -/
def findDangerous (query_upper : String) : Option String :=
  dangerousKeywords.find? (fun keyword => pyIn keyword query_upper)

/-- The `for statement in parsed` loop of `validate_query`: per statement,
the type check precedes the (statement-independent) keyword scan. -/
def validateLoop (query : String) : List String → Bool × String
  | [] => (true, "")
  | stmt_type :: rest =>
    if !(ALLOWED_STATEMENTS.contains stmt_type) then
      (false, "Only SELECT statements allowed. Got: " ++ stmt_type)
    else
      match findDangerous (pyUpper query) with
      | some keyword => (false, "Dangerous keyword: " ++ keyword)
      | none => validateLoop query rest

/-- Source function `validate_query`, parameterised by the `sqlparse` statement-type
oracle. -/
def validate_query (parse : String → List String) (query : String) : Bool × String :=
  match parse query with
  | [] => (false, "Empty or invalid query")
  | stmts => validateLoop query stmts

/-! ## Row-cap injection (server.py lines 194–208 and app/mcp_server.py
lines 49–56 share the final two statements verbatim) -/

/-- Constant `MAX_RAW_ROWS = 5` (`server.py` line 41). -/
def MAX_RAW_ROWS : Nat := 5

/-- Shared injection statement: append `LIMIT <limit>` when the stripped,
uppercased text starts with `SELECT` and does not contain the substring
`LIMIT`; otherwise leave the text untouched
(`server.py` lines 206–208, `app/mcp_server.py` lines 54–56). -/
def injectLimit (query : String) (limit : Nat) : String :=
  let query_upper := pyStrip (pyUpper query)
  if pyStartsWith query_upper "SELECT" && !(pyIn "LIMIT" query_upper) then
    rstripSemis (pyRstrip query) ++ " LIMIT " ++ Nat.repr limit
  else query

namespace Server

/-- Limit selection of `server.py` lines 197–204: auto-detected from the
classifier when the caller passed no limit (`MAX_ROWS` for aggregated,
`MAX_RAW_ROWS` for raw), otherwise clamped to `MAX_ROWS`.  `MAX_ROWS` is
read from the environment with default 1000, hence a parameter. -/
def appliedLimit (maxRows : Nat) (query : String) (limit : Option Nat) : Nat :=
  match limit with
  | none =>
    if WeightingService.is_aggregated_query query then maxRows else MAX_RAW_ROWS
  | some l => min l maxRows

/-- Query text actually submitted for execution by
`server.py.execute_query_on_dataset` (lines 194–208). -/
def dispatchedQuery (maxRows : Nat) (query : String) (limit : Option Nat) : String :=
  injectLimit query (appliedLimit maxRows query limit)

/-- Externals consumed by `server.py.execute_query_on_dataset`:
`sqlparse` statement typing, `get_dataset_connection` (decrypted and
scheme-normalised, `none` for a missing or inactive dataset), psycopg2
execution of the final text (cursor description and raw tuples), the
`MAX_ROWS` configuration and wall-clock timing. -/
structure ServerEnv where
  parse : String → List String
  conn : Int → Option String
  exec : String → Except String (List String × List (List PyValue))
  maxRows : Nat
  elapsedMs : Nat

/-- Response dict of `server.py.execute_query_on_dataset`; fields defaulted
below a branch's explicit assignments model keys absent from that
branch's dict. -/
structure ServerResponse where
  success : Bool
  error : Option String := none
  rows : List Row := []
  columns : List String := []
  row_count : Nat := 0
  execution_time_ms : Option Nat := none
  weight_column : Option String := none
  nccs_column : Option String := none
  is_aggregated : Bool := false
  row_limit_applied : Bool := false
  dataset_id : Option Int := none
deriving DecidableEq, Repr

/-- Source function `execute_query_on_dataset` (`server.py` lines
162–255): validate, resolve the connection, classify, inject the row cap,
execute, detect weight/segment columns, merge, and report
`row_limit_applied = should_limit and limit == MAX_RAW_ROWS` where
`should_limit` is recomputed from the *final* text and *post-execution*
row count. -/
def execute_query_on_dataset (env : ServerEnv) (dataset_id : Int)
    (query : String) (limit : Option Nat)
    (apply_weights apply_nccs : Bool) : ServerResponse :=
  let v := validate_query env.parse query
  if !v.1 then { success := false, error := some v.2 }
  else
    match env.conn dataset_id with
    | none => { success := false, error := some "Dataset not found or inactive" }
    | some _connection_string =>
      let is_aggregated := WeightingService.is_aggregated_query query
      let lim := appliedLimit env.maxRows query limit
      let query2 := injectLimit query lim
      match env.exec query2 with
      | .error e =>
        { success := false, error := some e,
          execution_time_ms := some env.elapsedMs }
      | .ok (columns, rawRows) =>
        let results : List Row := rawRows.map (fun r => columns.zip r)
        let weight_column :=
          if apply_weights then WeightingService.detect_weight_column columns else none
        let nccs_column :=
          if apply_nccs then WeightingService.detect_nccs_column columns else none
        let results :=
          if optTruthy nccs_column && !results.isEmpty then
            WeightingService.apply_nccs_merging results (nccs_column.getD "")
          else results
        let sl := WeightingService.should_apply_5_row_limit query2 results.length
        let row_limit_applied := sl.1 && (lim == MAX_RAW_ROWS)
        { success := true, rows := results, columns := columns,
          row_count := results.length,
          execution_time_ms := some env.elapsedMs,
          weight_column := weight_column, nccs_column := nccs_column,
          is_aggregated := is_aggregated,
          row_limit_applied := row_limit_applied,
          dataset_id := some dataset_id }

end Server

namespace Mcp

/-- Limit selection of `app/mcp_server.py` lines 49–52: `MAX_ROWS = 1000`
is a module constant there and no classifier is consulted. -/
def appliedLimit (limit : Option Nat) : Nat :=
  match limit with
  | none => 1000
  | some l => min l 1000

/-- Query text actually submitted for execution by
`app/mcp_server.py.execute_query_on_dataset` (lines 49–56). -/
def dispatchedQuery (query : String) (limit : Option Nat) : String :=
  injectLimit query (appliedLimit limit)

end Mcp

/-! ## Embedding of app/services/parallel_query_executor.py -/

namespace ParallelQueryExecutor

/-- Fields of a `Dataset` row consulted by the executor
(`app/models.py` via `db.query(Dataset)`). -/
structure DatasetRec where
  name : String
  connection_string_encrypted : String
  is_active : Bool

/-- Per-query result dict.  Every branch of the source sets `success`,
`query_index` and `label`; the remaining fields are defaulted exactly when
the corresponding key is absent from that branch's dict. -/
structure QueryResult where
  success : Bool
  error : Option String := none
  query_index : Nat
  label : String
  rows : List Row := []
  columns : List String := []
  row_count : Nat := 0
  execution_time_ms : Option Nat := none
  weight_column : Option String := none
  nccs_column : Option String := none
  is_aggregated : Bool := false
  row_limit_applied : Bool := false
  dataset_id : Option Int := none
  dataset_name : Option String := none
  query : Option String := none
deriving Repr

/-- One element of the `queries` argument of `execute_parallel`: a dict
whose `dataset_id` / `query` / `label` keys may each be absent. -/
structure QueryDef where
  dataset_id : Option Int
  query : Option String
  label : Option String
deriving Repr

/-- Externals consumed by the executor: the metadata-database dataset
lookup, credential decryption (an exception becomes the error string),
`get_or_create_pool` (`none` = asyncpg unavailable or pool creation
failed, triggering the sync fallback), the pooled `conn.fetch`, the
psycopg2 fallback (cursor description plus raw tuples), the
`ASYNCPG_AVAILABLE` probe, exceptions escaping a task before its
`try` block (absorbed by `asyncio.gather(..., return_exceptions=True)`),
and per-task wall-clock timings.  `SessionLocal()` itself constructs a
lazy session and cannot fail, so `next(get_db())` is not a failure
point. -/
structure ExecEnv where
  lookup : Int → Option DatasetRec
  decrypt : String → Except String String
  pool : Int → String → Option Unit
  fetch : Int → String → Except String (List Row)
  fetchSync : String → String → Except String (List String × List (List PyValue))
  asyncpgAvailable : Bool
  taskException : Nat → QueryDef → Option String
  elapsedMs : Nat → Nat

/-- Source method `_execute_query_sync` (lines 295–380): dataset lookup,
decrypt, scheme normalisation, direct psycopg2 execution, then the same
detection/merge/classification post-processing as the async path. -/
def executeQuerySync (env : ExecEnv) (apply_weights apply_nccs : Bool)
    (query_def : QueryDef) (index : Nat) : QueryResult :=
  let dataset_id := query_def.dataset_id.getD 0
  let query := query_def.query.getD ""
  let label := query_def.label.getD ("Query " ++ Nat.repr (index + 1))
  match env.lookup dataset_id with
  | none =>
    { success := false, error := some "Dataset not found or inactive",
      query_index := index, label := label }
  | some dataset =>
    if !dataset.is_active then
      { success := false, error := some "Dataset not found or inactive",
        query_index := index, label := label }
    else
      match env.decrypt dataset.connection_string_encrypted with
      | .error e =>
        { success := false, error := some e,
          execution_time_ms := some (env.elapsedMs index),
          query_index := index, label := label, query := some query }
      | .ok cs0 =>
        let connection_string := normalizeScheme cs0
        match env.fetchSync connection_string query with
        | .error e =>
          { success := false, error := some e,
            execution_time_ms := some (env.elapsedMs index),
            query_index := index, label := label, query := some query }
        | .ok (columns, rawRows) =>
          let results : List Row := rawRows.map (fun r => columns.zip r)
          let weight_column :=
            if apply_weights then WeightingService.detect_weight_column columns else none
          let nccs_column :=
            if apply_nccs then WeightingService.detect_nccs_column columns else none
          let results :=
            if optTruthy nccs_column && !results.isEmpty then
              WeightingService.apply_nccs_merging results (nccs_column.getD "")
            else results
          let is_aggregated := WeightingService.is_aggregated_query query
          let sl := WeightingService.should_apply_5_row_limit query results.length
          { success := true, rows := results, columns := columns,
            row_count := results.length,
            execution_time_ms := some (env.elapsedMs index),
            weight_column := weight_column, nccs_column := nccs_column,
            is_aggregated := is_aggregated,
            row_limit_applied := sl.1 && decide (results.length ≥ 5),
            dataset_id := some dataset_id, dataset_name := some dataset.name,
            query_index := index, label := label, query := some query }

/-- Source method `_execute_query_async` (lines 193–280): dataset lookup,
decrypt, scheme normalisation, `get_or_create_pool` (falling back to
`_execute_query_sync` when it yields no pool), pooled `conn.fetch` of the
unmodified query text, then detection, merge and classification.  Any
exception inside the `try` block is returned as a `success=False` dict
with the stringified error. -/
def executeQueryAsync (env : ExecEnv) (apply_weights apply_nccs : Bool)
    (query_def : QueryDef) (index : Nat) : QueryResult :=
  let dataset_id := query_def.dataset_id.getD 0
  let query := query_def.query.getD ""
  let label := query_def.label.getD ("Query " ++ Nat.repr (index + 1))
  match env.lookup dataset_id with
  | none =>
    { success := false, error := some "Dataset not found or inactive",
      query_index := index, label := label }
  | some dataset =>
    if !dataset.is_active then
      { success := false, error := some "Dataset not found or inactive",
        query_index := index, label := label }
    else
      match env.decrypt dataset.connection_string_encrypted with
      | .error e =>
        { success := false, error := some e,
          execution_time_ms := some (env.elapsedMs index),
          query_index := index, label := label, query := some query }
      | .ok cs0 =>
        let connection_string := normalizeScheme cs0
        match env.pool dataset_id connection_string with
        | none => executeQuerySync env apply_weights apply_nccs query_def index
        | some _ =>
          match env.fetch dataset_id query with
          | .error e =>
            { success := false, error := some e,
              execution_time_ms := some (env.elapsedMs index),
              query_index := index, label := label, query := some query }
          | .ok rows =>
            let columns := match rows with
              | [] => []
              | r :: _ => r.map Prod.fst
            let results := rows
            let weight_column :=
              if apply_weights then WeightingService.detect_weight_column columns else none
            let nccs_column :=
              if apply_nccs then WeightingService.detect_nccs_column columns else none
            let results :=
              if optTruthy nccs_column && !results.isEmpty then
                WeightingService.apply_nccs_merging results (nccs_column.getD "")
              else results
            let is_aggregated := WeightingService.is_aggregated_query query
            let sl := WeightingService.should_apply_5_row_limit query results.length
            { success := true, rows := results, columns := columns,
              row_count := results.length,
              execution_time_ms := some (env.elapsedMs index),
              weight_column := weight_column, nccs_column := nccs_column,
              is_aggregated := is_aggregated,
              row_limit_applied := sl.1 && decide (results.length ≥ 5),
              dataset_id := some dataset_id, dataset_name := some dataset.name,
              query_index := index, label := label, query := some query }

/-- One gathered task outcome in `_execute_async` (lines 163–191): an
exception escaping the task is wrapped as a `success=False` dict indexed
and labelled by submission position; otherwise the task's own dict is
used. -/
def executeSingleOutcome (env : ExecEnv) (apply_weights apply_nccs : Bool)
    (i : Nat) (query_def : QueryDef) : QueryResult :=
  match env.taskException i query_def with
  | some e =>
    { success := false, error := some e, query_index := i,
      label := query_def.label.getD ("Query " ++ Nat.repr (i + 1)) }
  | none => executeQueryAsync env apply_weights apply_nccs query_def i

/-- Enumerate-and-map (Python `enumerate`); `asyncio.gather` keeps the
submission order of its task list. -/
def mapIdxFrom (f : Nat → QueryDef → QueryResult) (i : Nat) :
    List QueryDef → List QueryResult
  | [] => []
  | q :: qs => f i q :: mapIdxFrom f (i + 1) qs

/-- Source method `_execute_async` (lines 156–191). -/
def executeAsyncBatch (env : ExecEnv) (apply_weights apply_nccs : Bool)
    (queries : List QueryDef) : List QueryResult :=
  mapIdxFrom (executeSingleOutcome env apply_weights apply_nccs) 0 queries

/-- Source method `_execute_sync` (lines 282–293). -/
def executeSyncBatch (env : ExecEnv) (apply_weights apply_nccs : Bool)
    (queries : List QueryDef) : List QueryResult :=
  mapIdxFrom (fun i q => executeQuerySync env apply_weights apply_nccs q i) 0 queries

/-- Results list of `execute_parallel` lines 136–140: the async batch when
asyncpg imported, else the sync batch. -/
def batchResults (env : ExecEnv) (apply_weights apply_nccs : Bool)
    (queries : List QueryDef) : List QueryResult :=
  if env.asyncpgAvailable then
    executeAsyncBatch env apply_weights apply_nccs queries
  else
    executeSyncBatch env apply_weights apply_nccs queries

/-- Successful return dict of `execute_parallel` (lines 147–154). -/
structure BatchSuccess where
  results : List QueryResult
  total_queries : Nat
  successful : Nat
  failed : Nat
  total_execution_time_ms : Nat

/-- Return shape of `execute_parallel`: a batch-shape rejection dict
(`success: False` with an error and no `results` key; the source also
reports `total_execution_time_ms: 0` there) or the completed batch. -/
inductive BatchOutcome where
  | rejected (error : String)
  | completed (b : BatchSuccess)

/-- Constant `max_queries_per_request = 30` (line 45). -/
def max_queries_per_request : Nat := 30

/-- First malformed entry (lines 128–134): index of the first query dict
missing `dataset_id` or `query` (the enumerate-and-return loop). -/
def firstInvalid : List QueryDef → Option Nat
  | [] => none
  | q :: qs =>
    if q.dataset_id.isNone || q.query.isNone then some 0
    else (firstInvalid qs).map (· + 1)

/-- Source method `execute_parallel` (lines 80–154): shape validation
(empty, oversized, malformed — each rejecting the whole batch before any
execution), then the async batch when asyncpg is importable else the sync
batch, then the summary counters `successful = #success`,
`failed = len(results) - successful`. -/
def execute_parallel (env : ExecEnv) (queries : List QueryDef)
    (apply_weights apply_nccs : Bool) : BatchOutcome :=
  if queries.length == 0 then
    .rejected "At least 1 query required"
  else if queries.length > max_queries_per_request then
    .rejected ("Maximum " ++ Nat.repr max_queries_per_request ++
      " queries allowed per request")
  else
    match firstInvalid queries with
    | some i =>
      .rejected ("Query " ++ Nat.repr (i + 1) ++
        ": Must have 'dataset_id' and 'query' fields")
    | none =>
      let results := batchResults env apply_weights apply_nccs queries
      let successful := results.countP (fun r => r.success)
      .completed
        { results := results,
          total_queries := queries.length,
          successful := successful,
          failed := results.length - successful,
          total_execution_time_ms := env.elapsedMs 0 }

end ParallelQueryExecutor

namespace ParallelQueryExecutor

/-- Whether `execute_parallel` rejected the whole batch. -/
def BatchOutcome.isRejected : BatchOutcome → Bool
  | .rejected _ => true
  | .completed _ => false

/-- Whether `execute_parallel` returned a completed batch. -/
def BatchOutcome.isCompleted : BatchOutcome → Bool
  | .rejected _ => false
  | .completed _ => true

/-- Per-query results of the outcome (a rejection dict has no `results`
key, rendered as the empty list). -/
def BatchOutcome.resultsD : BatchOutcome → List QueryResult
  | .rejected _ => []
  | .completed b => b.results

/-- Reported `total_queries` (0 on rejection, where the key is absent). -/
def BatchOutcome.totalD : BatchOutcome → Nat
  | .rejected _ => 0
  | .completed b => b.total_queries

/-- Reported `successful` counter. -/
def BatchOutcome.successfulD : BatchOutcome → Nat
  | .rejected _ => 0
  | .completed b => b.successful

/-- Reported `failed` counter. -/
def BatchOutcome.failedD : BatchOutcome → Nat
  | .rejected _ => 0
  | .completed b => b.failed

end ParallelQueryExecutor

/-! ## Spec-side definition and demonstration environments -/

/-- Modelled from the spec as amended for claim C5: the same checks as
`validate_query` with their precedence made explicit — the empty-parse
error first; then the type error for the *first* statement when it is not
`SELECT`; then the dangerous-keyword error; then the type error for the
first later non-`SELECT` statement; else success. -/
def validateSpec (stmts : List String) (query : String) : Bool × String :=
  match stmts with
  | [] => (false, "Empty or invalid query")
  | t :: ts =>
    if !(t == "SELECT") then
      (false, "Only SELECT statements allowed. Got: " ++ t)
    else
      match findDangerous (pyUpper query) with
      | some keyword => (false, "Dangerous keyword: " ++ keyword)
      | none =>
        match ts.find? (fun s => !(s == "SELECT")) with
        | some s => (false, "Only SELECT statements allowed. Got: " ++ s)
        | none => (true, "")

/-- Statement-type oracle for a text `sqlparse` types as one `UPDATE`
statement (e.g. `UPDATE T SET A = 1`). -/
def parseUpdate : String → List String := fun _ => ["UPDATE"]

/-- Ten-row table content for the demonstration database, as raw value
tuples (column `a`). -/
def demoVals10 : List (List PyValue) :=
  (List.range 10).map (fun k => [PyValue.vInt (Int.ofNat k)])

/-- The same ten rows in asyncpg record form. -/
def demoRows10 : List Row :=
  (List.range 10).map (fun k => [("a", PyValue.vInt (Int.ofNat k))])

/-- Demonstration executor environment: dataset 1 is active (its table `T`
holds the ten rows above and `SELECT 1` yields one row), dataset 2 is
registered but inactive, every other id is unknown.  The pooled `fetch`
answers exactly the unmodified query texts, so a capped rewrite of
`SELECT * FROM T` would return an error rather than ten rows. -/
def demoExecEnv : ParallelQueryExecutor.ExecEnv :=
  { lookup := fun dsid =>
      if dsid == 1 then some ⟨"panel", "enc1", true⟩
      else if dsid == 2 then some ⟨"dead", "enc2", false⟩
      else none,
    decrypt := fun s => if s == "enc1" then .ok "postgres://h/db" else .error "decrypt failure",
    pool := fun _ _ => some (),
    fetch := fun _ q =>
      if q == "SELECT * FROM T" then .ok demoRows10
      else if q == "SELECT 1" then .ok [[("x", PyValue.vInt 1)]]
      else .error "relation does not exist",
    fetchSync := fun _ _ => .error "psycopg2 failure",
    asyncpgAvailable := true,
    taskException := fun _ _ => none,
    elapsedMs := fun _ => 7 }

/-- Demonstration environment for `server.py.execute_query_on_dataset`:
every text parses as one `SELECT` statement, dataset 1 resolves, and the
backend answers `SELECT * FROM T` with ten rows and its `LIMIT 5` rewrite
with the first five. -/
def demoServerEnv : Server.ServerEnv :=
  { parse := fun _ => ["SELECT"],
    conn := fun dsid => if dsid == 1 then some "postgresql://h/db" else none,
    exec := fun q =>
      if q == "SELECT * FROM T LIMIT 5" then .ok (["a"], demoVals10.take 5)
      else if q == "SELECT * FROM T" then .ok (["a"], demoVals10)
      else .error "relation does not exist",
    maxRows := 1000,
    elapsedMs := 3 }

/-- Rows for the segment-merge demonstrations: a non-segment column `x`
and a segment column `seg`. -/
def demoSegRows : List Row :=
  [[("x", PyValue.vInt 1), ("seg", PyValue.vStr " c ")],
   [("x", PyValue.vInt 2), ("seg", PyValue.vStr "B")],
   [("x", PyValue.vInt 3), ("seg", PyValue.vNone)]]

/-! ## Helper lemmas -/

theorem rowGet_cons (x : String × PyValue) (xs : Row) (k : String) :
    rowGet (x :: xs) k = if x.1 == k then some x.2 else rowGet xs k := by
  simp only [rowGet, List.find?_cons]
  by_cases hx : (x.1 == k) = true <;> simp [hx]

theorem rowSet_keys (r : Row) (k : String) (v : PyValue) :
    (rowSet r k v).map Prod.fst = r.map Prod.fst := by
  unfold rowSet
  rw [List.map_map]
  apply List.map_congr_left
  intro a _
  by_cases ha : a.1 = k <;> simp [ha]

theorem rowGet_rowSet_ne (r : Row) (k k2 : String) (v : PyValue) (h : k2 ≠ k) :
    rowGet (rowSet r k v) k2 = rowGet r k2 := by
  induction r with
  | nil => rfl
  | cons p t ih =>
    have hset : rowSet (p :: t) k v
        = (if p.1 == k then (p.1, v) else p) :: rowSet t k v := rfl
    rw [hset, rowGet_cons, rowGet_cons, ih]
    by_cases hp : (p.1 == k) = true
    · have e1 : p.1 = k := by simpa using hp
      have hq : (p.1 == k2) = false := by
        simp only [beq_eq_false_iff_ne, ne_eq, e1]
        exact fun hh => h hh.symm
      simp [hp, hq]
    · have hpb : (p.1 == k) = false := by simpa using hp
      simp [hpb]

theorem mergeRow_cases (c : String) (row : Row) :
    WeightingService.mergeRow c row = row ∨
    ∃ v, WeightingService.mergeRow c row = rowSet row c v := by
  simp only [WeightingService.mergeRow]
  repeat' split
  all_goals first
    | exact Or.inl rfl
    | exact Or.inr ⟨_, rfl⟩

theorem apply_nccs_merging_eq (rows : List Row) (c : String) :
    WeightingService.apply_nccs_merging rows c = rows ∨
    WeightingService.apply_nccs_merging rows c
      = rows.map (WeightingService.mergeRow c) := by
  unfold WeightingService.apply_nccs_merging
  cases rows with
  | nil => exact Or.inl rfl
  | cons first rest =>
    by_cases hk : (rowHasKey first c) = true
    · right; simp [hk]
    · left; simp [hk]

/-! ## Claims C9, C10, C6 — segment merging -/

/-- Claim C9: for every non-empty row sequence and segment column name,
segment merging returns a sequence of the same length, position `i` of the
output arising from position `i` of the input with its key sequence
unchanged, and in every row every column other than the segment column
keeps exactly its original value. -/
theorem claim_C9 (rows : List Row) (c : String) (hne : rows ≠ []) :
    (WeightingService.apply_nccs_merging rows c).length = rows.length ∧
    ∀ i : Nat,
      ((WeightingService.apply_nccs_merging rows c).get? i).map (·.map Prod.fst)
          = (rows.get? i).map (·.map Prod.fst) ∧
      ∀ k, k ≠ c →
        ((WeightingService.apply_nccs_merging rows c).get? i).map (rowGet · k)
          = (rows.get? i).map (rowGet · k) := by
  have _ := hne
  rcases apply_nccs_merging_eq rows c with he | he
  · rw [he]
    exact ⟨rfl, fun i => ⟨rfl, fun k _ => rfl⟩⟩
  · rw [he]
    refine ⟨List.length_map _ _, fun i => ⟨?_, fun k hkc => ?_⟩⟩
    · rw [List.get?_map]
      cases hro : rows.get? i with
      | none => rfl
      | some row =>
        rcases mergeRow_cases c row with hc | ⟨v, hc⟩ <;>
          simp [hc, rowSet_keys]
    · rw [List.get?_map]
      cases hro : rows.get? i with
      | none => rfl
      | some row =>
        rcases mergeRow_cases c row with hc | ⟨v, hc⟩ <;>
          simp [hc, rowGet_rowSet_ne _ _ _ _ hkc]

/-- Witness for claim C9 at a concrete three-row input. -/
theorem claim_C9_witness :
    (WeightingService.apply_nccs_merging demoSegRows "seg").length
      = demoSegRows.length :=
  (claim_C9 demoSegRows "seg" (by decide)).1

/-- Claim C10: if the segment column name is not a key of the first row of
a non-empty row sequence, segment merging returns the entire sequence
unchanged. -/
theorem claim_C10 (first : Row) (rest : List Row) (c : String)
    (h : rowHasKey first c = false) :
    WeightingService.apply_nccs_merging (first :: rest) c = first :: rest := by
  unfold WeightingService.apply_nccs_merging
  simp [h]

/-- Witness for claim C10: the first row lacks the segment column while a
later row does contain it, and the whole sequence is returned unchanged. -/
theorem claim_C10_witness :
    WeightingService.apply_nccs_merging
        [[("x", PyValue.vInt 1)], [("seg", PyValue.vStr "C")]] "seg"
      = [[("x", PyValue.vInt 1)], [("seg", PyValue.vStr "C")]] :=
  claim_C10 [("x", PyValue.vInt 1)] [[("seg", PyValue.vStr "C")]] "seg" (by decide)

/-- Counterexample to claim C6 as stated: the input segment value `" a "`
(a case/whitespace variant of `A`) is left exactly as it was by the merge,
so it does not normalise to `A`. -/
theorem claim_C6_counterexample :
    WeightingService.apply_nccs_merging [[("seg", PyValue.vStr " a ")]] "seg"
        = [[("seg", PyValue.vStr " a ")]] ∧
    PyValue.vStr " a " ≠ PyValue.vStr "A" :=
  ⟨by decide, by decide⟩

/-- Claim C6 as amended: with the segment column a key of the first row,
the merge maps each row independently; a row whose segment value is
null/absent (or otherwise falsy) is unmodified; otherwise, comparing the
trimmed uppercased value, `A1` is overwritten with `A`, and `C`, `D` or
`E` with `C/D/E`, while any other value — including case or whitespace
variants of `A` and `B` — is left exactly as it was. -/
theorem claim_C6_amended (c : String) (first : Row) (rest : List Row)
    (hk : rowHasKey first c = true) :
    WeightingService.apply_nccs_merging (first :: rest) c
        = (first :: rest).map (WeightingService.mergeRow c) ∧
    ∀ row : Row,
      (pyTruthy ((rowGet row c).getD PyValue.vNone) = false →
        WeightingService.mergeRow c row = row) ∧
      ∀ v, rowGet row c = some v → pyTruthy v = true →
        (pyUpper (pyStrip (pyStr v)) = "A1" →
          WeightingService.mergeRow c row = rowSet row c (PyValue.vStr "A")) ∧
        ((pyUpper (pyStrip (pyStr v)) = "C" ∨ pyUpper (pyStrip (pyStr v)) = "D" ∨
            pyUpper (pyStrip (pyStr v)) = "E") →
          WeightingService.mergeRow c row = rowSet row c (PyValue.vStr "C/D/E")) ∧
        (pyUpper (pyStrip (pyStr v)) ≠ "A1" →
          ¬(pyUpper (pyStrip (pyStr v)) = "C" ∨ pyUpper (pyStrip (pyStr v)) = "D" ∨
            pyUpper (pyStrip (pyStr v)) = "E") →
          WeightingService.mergeRow c row = row) := by
  constructor
  · unfold WeightingService.apply_nccs_merging
    simp [hk]
  · intro row
    constructor
    · intro hf
      simp only [WeightingService.mergeRow, hf, Bool.false_eq_true, if_false]
    · intro v hv htruthy
      simp only [WeightingService.mergeRow, hv, Option.getD_some, htruthy, if_true]
      refine ⟨?_, ?_, ?_⟩
      · intro ha1
        simp [ha1]
      · intro hcde
        have hne1 : (pyUpper (pyStrip (pyStr v)) == "A1") = false := by
          rcases hcde with hcd | hcd | hcd <;> simp [hcd]
        rcases hcde with hcd | hcd | hcd <;> simp [hne1, hcd]
      · intro ha1 hcde
        have h1 : (pyUpper (pyStrip (pyStr v)) == "A1") = false := by
          simp [ha1]
        have h2 : (pyUpper (pyStrip (pyStr v)) == "C") = false := by
          simp only [beq_eq_false_iff_ne, ne_eq]
          tauto
        have h3 : (pyUpper (pyStrip (pyStr v)) == "D") = false := by
          simp only [beq_eq_false_iff_ne, ne_eq]
          tauto
        have h4 : (pyUpper (pyStrip (pyStr v)) == "E") = false := by
          simp only [beq_eq_false_iff_ne, ne_eq]
          tauto
        simp [h1, h2, h3, h4]

/-- Witness for the amended claim C6 at the concrete three-row input
(whose segment values `" c "`, `"B"` and null map to `C/D/E`, `B` and
null). -/
theorem claim_C6_witness :
    WeightingService.apply_nccs_merging demoSegRows "seg"
      = demoSegRows.map (WeightingService.mergeRow "seg") := by
  have h := claim_C6_amended "seg"
      [("x", PyValue.vInt 1), ("seg", PyValue.vStr " c ")]
      [[("x", PyValue.vInt 2), ("seg", PyValue.vStr "B")],
       [("x", PyValue.vInt 3), ("seg", PyValue.vNone)]] (by decide)
  exact h.1

/-! ## Claim C7 — weight / segment column detection -/

theorem find?_eq_some_idx {α : Type} (p : α → Bool) (l : List α) (a : α)
    (h : l.find? p = some a) :
    p a = true ∧
    ∃ i, ∃ hi : i < l.length, l.get ⟨i, hi⟩ = a ∧
      ∀ j (hj : j < i), p (l.get ⟨j, by omega⟩) = false := by
  induction l with
  | nil => cases h
  | cons b t ih =>
    rw [List.find?_cons] at h
    cases hpb : p b with
    | true =>
      rw [hpb] at h
      simp only [cond_true, Option.some.injEq] at h
      subst h
      exact ⟨hpb, 0, by simp, rfl, fun j hj => absurd hj (by omega)⟩
    | false =>
      rw [hpb] at h
      simp only [cond_false] at h
      obtain ⟨hpa, i, hi, hget, hprev⟩ := ih h
      refine ⟨hpa, i + 1, by simpa using Nat.succ_lt_succ hi, hget, ?_⟩
      intro j hj
      cases j with
      | zero => exact hpb
      | succ j2 => exact hprev j2 (by omega)

theorem detect_column_cons (p : String) (ps columns : List String) :
    WeightingService.detect_column (p :: ps) columns
      = match columns.find? (fun col => pyIn p (pyLower col)) with
        | some col => some col
        | none => WeightingService.detect_column ps columns := rfl

theorem detect_column_none_iff (patterns columns : List String) :
    WeightingService.detect_column patterns columns = none ↔
      ∀ p ∈ patterns, ∀ col ∈ columns, pyIn p (pyLower col) = false := by
  induction patterns with
  | nil => simp [WeightingService.detect_column]
  | cons p ps ih =>
    rw [detect_column_cons]
    cases hf : columns.find? (fun col => pyIn p (pyLower col)) with
    | some col =>
      simp only []
      constructor
      · intro hcontr; cases hcontr
      · intro hall
        have hmem := List.mem_of_find?_eq_some hf
        have hp := List.find?_some hf
        have := hall p (by simp) col hmem
        simp only [this] at hp
        cases hp
    | none =>
      simp only []
      rw [ih]
      constructor
      · intro hall q hq col hcol
        rcases List.mem_cons.mp hq with rfl | hq2
        · have := List.find?_eq_none.mp hf col hcol
          simpa using this
        · exact hall q hq2 col hcol
      · intro hall q hq col hcol
        exact hall q (by simp [hq]) col hcol

theorem detect_column_some (patterns columns : List String) (c : String)
    (h : WeightingService.detect_column patterns columns = some c) :
    ∃ j, ∃ hj : j < patterns.length, ∃ i, ∃ hi : i < columns.length,
      columns.get ⟨i, hi⟩ = c ∧
      pyIn (patterns.get ⟨j, hj⟩) (pyLower c) = true ∧
      (∀ j2 (hj2 : j2 < j), ∀ col ∈ columns,
        pyIn (patterns.get ⟨j2, by omega⟩) (pyLower col) = false) ∧
      (∀ i2 (hi2 : i2 < i),
        pyIn (patterns.get ⟨j, hj⟩) (pyLower (columns.get ⟨i2, by omega⟩)) = false) := by
  induction patterns with
  | nil => cases h
  | cons p ps ih =>
    rw [detect_column_cons] at h
    cases hf : columns.find? (fun col => pyIn p (pyLower col)) with
    | some col =>
      rw [hf] at h
      simp only [Option.some.injEq] at h
      subst h
      obtain ⟨hpc, i, hi, hget, hprev⟩ := find?_eq_some_idx _ _ _ hf
      refine ⟨0, by simp, i, hi, hget, ?_, ?_, ?_⟩
      · subst hget; simpa using hpc
      · intro j2 hj2; exact absurd hj2 (by omega)
      · intro i2 hi2
        have := hprev i2 hi2
        simpa using this
    | none =>
      rw [hf] at h
      obtain ⟨j, hj, i, hi, hget, hmatch, hjprev, hiprev⟩ := ih h
      refine ⟨j + 1, by simpa using Nat.succ_lt_succ hj, i, hi, hget, hmatch, ?_, hiprev⟩
      intro j2 hj2 col hcol
      cases j2 with
      | zero =>
        have := List.find?_eq_none.mp hf col hcol
        simpa using this
      | succ j3 => exact hjprev j3 (by omega) col hcol

/-- Claim C7: weight-column detection scans the fixed weight-pattern list
in priority order and, for each pattern, the columns in result order,
returning (with original casing) the first column whose lowercased name
contains the pattern as a substring, and none when no pattern matches;
segment detection does the same independently over the segment patterns;
ties break by pattern-list order first, then column order. -/
theorem claim_C7 :
    (∀ columns : List String,
      (WeightingService.detect_weight_column columns = none ↔
        ∀ p ∈ WeightingService.WEIGHT_PATTERNS, ∀ col ∈ columns,
          pyIn p (pyLower col) = false) ∧
      ∀ c, WeightingService.detect_weight_column columns = some c →
        ∃ j, ∃ hj : j < WeightingService.WEIGHT_PATTERNS.length,
        ∃ i, ∃ hi : i < columns.length,
          columns.get ⟨i, hi⟩ = c ∧
          pyIn (WeightingService.WEIGHT_PATTERNS.get ⟨j, hj⟩) (pyLower c) = true ∧
          (∀ j2 (hj2 : j2 < j), ∀ col ∈ columns,
            pyIn (WeightingService.WEIGHT_PATTERNS.get ⟨j2, by omega⟩)
              (pyLower col) = false) ∧
          (∀ i2 (hi2 : i2 < i),
            pyIn (WeightingService.WEIGHT_PATTERNS.get ⟨j, hj⟩)
              (pyLower (columns.get ⟨i2, by omega⟩)) = false)) ∧
    (∀ columns : List String,
      (WeightingService.detect_nccs_column columns = none ↔
        ∀ p ∈ WeightingService.NCCS_PATTERNS, ∀ col ∈ columns,
          pyIn p (pyLower col) = false) ∧
      ∀ c, WeightingService.detect_nccs_column columns = some c →
        ∃ j, ∃ hj : j < WeightingService.NCCS_PATTERNS.length,
        ∃ i, ∃ hi : i < columns.length,
          columns.get ⟨i, hi⟩ = c ∧
          pyIn (WeightingService.NCCS_PATTERNS.get ⟨j, hj⟩) (pyLower c) = true ∧
          (∀ j2 (hj2 : j2 < j), ∀ col ∈ columns,
            pyIn (WeightingService.NCCS_PATTERNS.get ⟨j2, by omega⟩)
              (pyLower col) = false) ∧
          (∀ i2 (hi2 : i2 < i),
            pyIn (WeightingService.NCCS_PATTERNS.get ⟨j, hj⟩)
              (pyLower (columns.get ⟨i2, by omega⟩)) = false)) :=
  ⟨fun columns =>
    ⟨detect_column_none_iff _ columns,
     fun _ h => detect_column_some _ columns _ h⟩,
   fun columns =>
    ⟨detect_column_none_iff _ columns,
     fun _ h => detect_column_some _ columns _ h⟩⟩

/-! ## Claim C5 — query safety validation -/

theorem validateLoop_no_keyword (q : String) (ts : List String)
    (h : findDangerous (pyUpper q) = none) :
    validateLoop q ts
      = match ts.find? (fun s => !(s == "SELECT")) with
        | some s => (false, "Only SELECT statements allowed. Got: " ++ s)
        | none => (true, "") := by
  induction ts with
  | nil => rfl
  | cons s ss ih =>
    rw [List.find?_cons]
    by_cases hs : (s == "SELECT") = true
    · have hc : (ALLOWED_STATEMENTS.contains s) = true := by
        have : s = "SELECT" := by simpa using hs
        simp [ALLOWED_STATEMENTS, this]
      simp only [validateLoop, hc, Bool.not_true, Bool.false_eq_true, if_false, h,
        hs, cond_false]
      exact ih
    · have heq : (s == "SELECT") = false := by simpa using hs
      have hc : (ALLOWED_STATEMENTS.contains s) = false := by
        have : s ≠ "SELECT" := by simpa using hs
        simp [ALLOWED_STATEMENTS, this]
      have hmem : s ∉ ALLOWED_STATEMENTS := by
        have : s ≠ "SELECT" := by simpa using hs
        simp [ALLOWED_STATEMENTS, this]
      simp [validateLoop, hc, heq, hmem]

/-- Counterexample to claim C5 as stated: a text whose single parsed
statement types as `UPDATE` contains the dangerous keyword `UPDATE`, yet
the validator reports the disallowed-statement-type error, not the
dangerous-keyword error — the keyword scan is not reached independently of
statement typing. -/
theorem claim_C5_counterexample :
    pyIn "UPDATE" (pyUpper "UPDATE T SET A = 1") = true ∧
    validate_query parseUpdate "UPDATE T SET A = 1"
      = (false, "Only SELECT statements allowed. Got: UPDATE") ∧
    validate_query parseUpdate "UPDATE T SET A = 1"
      ≠ (false, "Dangerous keyword: UPDATE") :=
  ⟨by decide, by decide, by decide⟩

/-- Claim C5 as amended: the validator fails with the empty-query error
when parsing yields no statements; with the disallowed-statement-type
error when the first statement's type is not SELECT (even if a dangerous
keyword is present); otherwise with the dangerous-keyword error when the
uppercased raw text contains one of the seven keywords as a substring
(even inside an identifier); otherwise with the type error for the first
later non-SELECT statement; and otherwise succeeds, with no side
effects. -/
theorem claim_C5_amended (parse : String → List String) (query : String) :
    validate_query parse query = validateSpec (parse query) query := by
  unfold validate_query validateSpec
  cases hp : parse query with
  | nil => rfl
  | cons t ts =>
    by_cases ht : (t == "SELECT") = true
    · have hc : (ALLOWED_STATEMENTS.contains t) = true := by
        have : t = "SELECT" := by simpa using ht
        simp [ALLOWED_STATEMENTS, this]
      simp only [validateLoop, hc, Bool.not_true, Bool.false_eq_true, if_false, ht]
      cases hd : findDangerous (pyUpper query) with
      | some k => simp
      | none => simpa using validateLoop_no_keyword query ts hd
    · have heq : (t == "SELECT") = false := by simpa using ht
      have hc : (ALLOWED_STATEMENTS.contains t) = false := by
        have : t ≠ "SELECT" := by simpa using ht
        simp [ALLOWED_STATEMENTS, this]
      have hmem : t ∉ ALLOWED_STATEMENTS := by
        have : t ≠ "SELECT" := by simpa using ht
        simp [ALLOWED_STATEMENTS, this]
      simp [validateLoop, hc, heq, hmem]

/-! ## Claim C4 — row-cap injection policy -/

/-- Counterexample to claim C4 as stated: `SELECT * FROM T` is classified
raw and contains no `LIMIT`, yet the `app/mcp_server.py` dispatcher
submits it with `LIMIT 1000` appended, not the raw cap `LIMIT 5` the
claim requires for non-aggregated queries. -/
theorem claim_C4_counterexample :
    WeightingService.is_aggregated_query "SELECT * FROM T" = false ∧
    pyIn "LIMIT" (pyUpper "SELECT * FROM T") = false ∧
    Mcp.dispatchedQuery "SELECT * FROM T" none = "SELECT * FROM T LIMIT 1000" ∧
    ("SELECT * FROM T LIMIT 1000" : String) ≠ "SELECT * FROM T LIMIT 5" :=
  ⟨by decide, by decide, by decide, by decide⟩

/-- Claim C4 as amended: the single-query dispatchers append `LIMIT n`
only when the stripped uppercased text starts with `SELECT` and does not
contain the substring `LIMIT`; `server.py` picks `n` as the aggregated cap
(`MAX_ROWS`, default 1000) for aggregated queries and the raw cap 5
otherwise, while `app/mcp_server.py` always uses its constant cap 1000;
text containing `LIMIT` anywhere is executed unmodified (never overridden
or clamped); and the parallel batch executor submits every query text
unmodified, never appending any `LIMIT` — witnessed by a pooled execution
whose backend answers only the exact original text with ten rows. -/
theorem claim_C4_amended :
    (∀ (maxRows : Nat) (query : String) (limit : Option Nat),
      (pyIn "LIMIT" (pyStrip (pyUpper query)) = true →
        Server.dispatchedQuery maxRows query limit = query) ∧
      (pyStartsWith (pyStrip (pyUpper query)) "SELECT" = false →
        Server.dispatchedQuery maxRows query limit = query) ∧
      (pyStartsWith (pyStrip (pyUpper query)) "SELECT" = true →
        pyIn "LIMIT" (pyStrip (pyUpper query)) = false →
        Server.dispatchedQuery maxRows query none
          = rstripSemis (pyRstrip query) ++ " LIMIT " ++
              Nat.repr (if WeightingService.is_aggregated_query query
                then maxRows else MAX_RAW_ROWS))) ∧
    (∀ (query : String) (limit : Option Nat),
      (pyIn "LIMIT" (pyStrip (pyUpper query)) = true →
        Mcp.dispatchedQuery query limit = query) ∧
      (pyStartsWith (pyStrip (pyUpper query)) "SELECT" = true →
        pyIn "LIMIT" (pyStrip (pyUpper query)) = false →
        Mcp.dispatchedQuery query none
          = rstripSemis (pyRstrip query) ++ " LIMIT " ++ Nat.repr 1000)) ∧
    (ParallelQueryExecutor.executeQueryAsync demoExecEnv true true
        ⟨some 1, some "SELECT * FROM T", none⟩ 0).row_count = 10 := by
  refine ⟨?_, ?_, by decide⟩
  · intro maxRows query limit
    refine ⟨?_, ?_, ?_⟩
    · intro hlim
      simp [Server.dispatchedQuery, injectLimit, hlim]
    · intro hstart
      simp [Server.dispatchedQuery, injectLimit, hstart]
    · intro hstart hlim
      simp [Server.dispatchedQuery, injectLimit, Server.appliedLimit, hstart, hlim]
  · intro query limit
    refine ⟨?_, ?_⟩
    · intro hlim
      simp [Mcp.dispatchedQuery, injectLimit, hlim]
    · intro hstart hlim
      simp [Mcp.dispatchedQuery, injectLimit, Mcp.appliedLimit, hstart, hlim]

/-- Witness for the amended claim C4: the server dispatcher caps the raw
query `SELECT * FROM T` at 5 when `MAX_ROWS` is the default 1000. -/
theorem claim_C4_witness :
    Server.dispatchedQuery 1000 "SELECT * FROM T" none
      = "SELECT * FROM T LIMIT 5" := by
  have h := (claim_C4_amended.1 1000 "SELECT * FROM T" none).2.2
      (by decide) (by decide)
  rw [h]
  decide

/-! ## Claim C3 — five-row cap and the row-limit flag -/

/-- Evaluation of `server.py.execute_query_on_dataset` at the failing
input for claim C3: a raw `SELECT * FROM T` with no explicit limit over a
ten-row table comes back with exactly five rows (the injected `LIMIT 5`)
but with `row_limit_applied = false`, because the flag is recomputed from
the post-limit row count (5), which is never `> 5`. -/
theorem claim_C3_code_eval :
    (Server.execute_query_on_dataset demoServerEnv 1 "SELECT * FROM T"
        none true true).success = true ∧
    (Server.execute_query_on_dataset demoServerEnv 1 "SELECT * FROM T"
        none true true).row_count = 5 ∧
    (Server.execute_query_on_dataset demoServerEnv 1 "SELECT * FROM T"
        none true true).row_limit_applied = false := by
  decide

/-! ## Claims C8, C1, C2 — the parallel executor -/

theorem firstInvalid_eq_none (queries : List ParallelQueryExecutor.QueryDef)
    (h : ∀ q ∈ queries, q.dataset_id.isSome = true ∧ q.query.isSome = true) :
    ParallelQueryExecutor.firstInvalid queries = none := by
  induction queries with
  | nil => rfl
  | cons q qs ih =>
    obtain ⟨h1, h2⟩ := h q (by simp)
    have h1f : q.dataset_id.isNone = false := by
      obtain ⟨x, hx⟩ := Option.isSome_iff_exists.mp h1
      simp [hx]
    have h2f : q.query.isNone = false := by
      obtain ⟨x, hx⟩ := Option.isSome_iff_exists.mp h2
      simp [hx]
    simp only [ParallelQueryExecutor.firstInvalid, h1f, h2f, Bool.or_self,
      Bool.false_eq_true, if_false]
    rw [ih (fun r hr => h r (by simp [hr]))]
    rfl

theorem firstInvalid_eq_some (queries : List ParallelQueryExecutor.QueryDef)
    (h : ∃ q ∈ queries, q.dataset_id.isNone = true ∨ q.query.isNone = true) :
    ∃ i, ParallelQueryExecutor.firstInvalid queries = some i := by
  induction queries with
  | nil =>
    obtain ⟨q, hq, _⟩ := h
    cases hq
  | cons q qs ih =>
    by_cases hc : (q.dataset_id.isNone || q.query.isNone) = true
    · exact ⟨0, by simp [ParallelQueryExecutor.firstInvalid, hc]⟩
    · have hcf : (q.dataset_id.isNone || q.query.isNone) = false := by
        simp only [Bool.not_eq_true] at hc
        exact hc
      obtain ⟨hA, hB⟩ := Bool.or_eq_false_iff.mp hcf
      obtain ⟨r, hr, hbad⟩ := h
      rcases List.mem_cons.mp hr with rfl | hr2
      · rcases hbad with hb | hb
        · rw [hb] at hA; cases hA
        · rw [hb] at hB; cases hB
      · obtain ⟨i, hi⟩ := ih ⟨r, hr2, hbad⟩
        refine ⟨i + 1, ?_⟩
        simp [ParallelQueryExecutor.firstInvalid, hcf, hi]

/-- Claim C8: a batch of 0 requests, of more than 30 requests, or
containing an item lacking its dataset id or query text is rejected whole
with a batch-level error and zero per-query results, and the rejection is
independent of the execution environment — no query executes. -/
theorem claim_C8 (queries : List ParallelQueryExecutor.QueryDef) (aw an : Bool)
    (h : queries.length = 0 ∨ queries.length > 30 ∨
      ∃ q ∈ queries, q.dataset_id.isNone = true ∨ q.query.isNone = true) :
    ∀ env env2 : ParallelQueryExecutor.ExecEnv,
      (ParallelQueryExecutor.execute_parallel env queries aw an).isRejected = true ∧
      (ParallelQueryExecutor.execute_parallel env queries aw an).resultsD = [] ∧
      ParallelQueryExecutor.execute_parallel env queries aw an
        = ParallelQueryExecutor.execute_parallel env2 queries aw an := by
  intro env env2
  by_cases h0 : queries.length = 0
  · have hb : (queries.length == 0) = true := by simpa using h0
    simp [ParallelQueryExecutor.execute_parallel, hb,
      ParallelQueryExecutor.BatchOutcome.isRejected,
      ParallelQueryExecutor.BatchOutcome.resultsD]
  · have hb : (queries.length == 0) = false := by simpa using h0
    by_cases h30 : queries.length > ParallelQueryExecutor.max_queries_per_request
    · simp [ParallelQueryExecutor.execute_parallel, hb, h30,
        ParallelQueryExecutor.BatchOutcome.isRejected,
        ParallelQueryExecutor.BatchOutcome.resultsD]
    · have hmal : ∃ q ∈ queries, q.dataset_id.isNone = true ∨ q.query.isNone = true := by
        rcases h with hc | hc | hc
        · exact absurd hc h0
        · exact absurd
            (by simpa [ParallelQueryExecutor.max_queries_per_request] using hc) h30
        · exact hc
      obtain ⟨i, hi⟩ := firstInvalid_eq_some queries hmal
      simp [ParallelQueryExecutor.execute_parallel, hb, h30, hi,
        ParallelQueryExecutor.BatchOutcome.isRejected,
        ParallelQueryExecutor.BatchOutcome.resultsD]

/-- Witness for claim C8: the empty batch is rejected with no results. -/
theorem claim_C8_witness :
    (ParallelQueryExecutor.execute_parallel demoExecEnv [] true true).isRejected
        = true ∧
    (ParallelQueryExecutor.execute_parallel demoExecEnv [] true true).resultsD
        = [] := by
  have h := claim_C8 [] true true (Or.inl rfl) demoExecEnv demoExecEnv
  exact ⟨h.1, h.2.1⟩

theorem mapIdxFrom_length (f : Nat → ParallelQueryExecutor.QueryDef →
      ParallelQueryExecutor.QueryResult) (s : Nat)
    (l : List ParallelQueryExecutor.QueryDef) :
    (ParallelQueryExecutor.mapIdxFrom f s l).length = l.length := by
  induction l generalizing s with
  | nil => rfl
  | cons q qs ih => simp [ParallelQueryExecutor.mapIdxFrom, ih]

theorem mapIdxFrom_getElem? (f : Nat → ParallelQueryExecutor.QueryDef →
      ParallelQueryExecutor.QueryResult) (s : Nat)
    (l : List ParallelQueryExecutor.QueryDef) (i : Nat) :
    (ParallelQueryExecutor.mapIdxFrom f s l)[i]?
      = (l[i]?).map (fun q => f (s + i) q) := by
  induction l generalizing s i with
  | nil => simp [ParallelQueryExecutor.mapIdxFrom]
  | cons q qs ih =>
    cases i with
    | zero => simp [ParallelQueryExecutor.mapIdxFrom]
    | succ i2 =>
      simp only [ParallelQueryExecutor.mapIdxFrom, List.getElem?_cons_succ, ih]
      have hn : s + 1 + i2 = s + (i2 + 1) := by omega
      rw [hn]

theorem executeQuerySync_query_index (env : ParallelQueryExecutor.ExecEnv)
    (aw an : Bool) (qd : ParallelQueryExecutor.QueryDef) (i : Nat) :
    (ParallelQueryExecutor.executeQuerySync env aw an qd i).query_index = i := by
  simp only [ParallelQueryExecutor.executeQuerySync]
  repeat' split
  all_goals rfl

theorem executeQueryAsync_query_index (env : ParallelQueryExecutor.ExecEnv)
    (aw an : Bool) (qd : ParallelQueryExecutor.QueryDef) (i : Nat) :
    (ParallelQueryExecutor.executeQueryAsync env aw an qd i).query_index = i := by
  cases hl : env.lookup (qd.dataset_id.getD 0) with
  | none => simp only [ParallelQueryExecutor.executeQueryAsync, hl]
  | some dataset =>
    cases ha : dataset.is_active with
    | false =>
      simp only [ParallelQueryExecutor.executeQueryAsync, hl, ha,
        Bool.not_false, if_true]
    | true =>
      cases hd : env.decrypt dataset.connection_string_encrypted with
      | error e =>
        simp only [ParallelQueryExecutor.executeQueryAsync, hl, ha, hd,
          Bool.not_true, Bool.false_eq_true, if_false]
      | ok cs0 =>
        cases hp : env.pool (qd.dataset_id.getD 0) (normalizeScheme cs0) with
        | none =>
          simp only [ParallelQueryExecutor.executeQueryAsync, hl, ha, hd, hp,
            Bool.not_true, Bool.false_eq_true, if_false]
          exact executeQuerySync_query_index env aw an qd i
        | some u =>
          cases hf : env.fetch (qd.dataset_id.getD 0) (qd.query.getD "") with
          | error e =>
            simp only [ParallelQueryExecutor.executeQueryAsync, hl, ha, hd, hp,
              hf, Bool.not_true, Bool.false_eq_true, if_false]
          | ok rows =>
            simp only [ParallelQueryExecutor.executeQueryAsync, hl, ha, hd, hp,
              hf, Bool.not_true, Bool.false_eq_true, if_false]

theorem executeSingleOutcome_query_index (env : ParallelQueryExecutor.ExecEnv)
    (aw an : Bool) (i : Nat) (qd : ParallelQueryExecutor.QueryDef) :
    (ParallelQueryExecutor.executeSingleOutcome env aw an i qd).query_index = i := by
  simp only [ParallelQueryExecutor.executeSingleOutcome]
  split
  · rfl
  · exact executeQueryAsync_query_index env aw an qd i

theorem batchResults_length (env : ParallelQueryExecutor.ExecEnv) (aw an : Bool)
    (queries : List ParallelQueryExecutor.QueryDef) :
    (ParallelQueryExecutor.batchResults env aw an queries).length
      = queries.length := by
  unfold ParallelQueryExecutor.batchResults
    ParallelQueryExecutor.executeAsyncBatch ParallelQueryExecutor.executeSyncBatch
  split <;> exact mapIdxFrom_length _ _ _

theorem batchResults_query_index (env : ParallelQueryExecutor.ExecEnv)
    (aw an : Bool) (queries : List ParallelQueryExecutor.QueryDef) (i : Nat)
    (r : ParallelQueryExecutor.QueryResult)
    (hr : (ParallelQueryExecutor.batchResults env aw an queries)[i]? = some r) :
    r.query_index = i := by
  unfold ParallelQueryExecutor.batchResults
    ParallelQueryExecutor.executeAsyncBatch ParallelQueryExecutor.executeSyncBatch at hr
  split at hr <;>
    rw [mapIdxFrom_getElem?] at hr <;>
    cases hq : queries[i]? with
  | none => rw [hq] at hr; cases hr
  | some q =>
    rw [hq] at hr
    simp only [Option.map_some', Option.some.injEq] at hr
    subst hr
    simp only [Nat.zero_add]
    first
      | exact executeSingleOutcome_query_index env aw an i q
      | exact executeQuerySync_query_index env aw an q i

theorem execute_parallel_completed (env : ParallelQueryExecutor.ExecEnv)
    (queries : List ParallelQueryExecutor.QueryDef) (aw an : Bool)
    (h1 : queries.length ≠ 0) (h2 : queries.length ≤ 30)
    (h3 : ∀ q ∈ queries, q.dataset_id.isSome = true ∧ q.query.isSome = true) :
    ParallelQueryExecutor.execute_parallel env queries aw an
      = ParallelQueryExecutor.BatchOutcome.completed
          { results := ParallelQueryExecutor.batchResults env aw an queries,
            total_queries := queries.length,
            successful := (ParallelQueryExecutor.batchResults env aw an
              queries).countP (fun r => r.success),
            failed := (ParallelQueryExecutor.batchResults env aw an
                queries).length
              - (ParallelQueryExecutor.batchResults env aw an queries).countP
                (fun r => r.success),
            total_execution_time_ms := env.elapsedMs 0 } := by
  have hb : (queries.length == 0) = false := by simpa using h1
  have h30 : ¬ queries.length > ParallelQueryExecutor.max_queries_per_request := by
    simp only [ParallelQueryExecutor.max_queries_per_request]
    omega
  have hfi := firstInvalid_eq_none queries h3
  unfold ParallelQueryExecutor.execute_parallel
  simp only [hb, Bool.false_eq_true, if_false, hfi]
  rw [if_neg h30]

/-- Claim C1: every batch of `N` queries with `1 ≤ N ≤ 30` and well-formed
items is accepted and completes with `len(results) = N = total_queries`,
`successful + failed = total_queries`, and `results[i].query_index = i`
for every position `i` — results are in submission order. -/
theorem claim_C1 (env : ParallelQueryExecutor.ExecEnv)
    (queries : List ParallelQueryExecutor.QueryDef) (aw an : Bool)
    (h1 : 1 ≤ queries.length) (h2 : queries.length ≤ 30)
    (h3 : ∀ q ∈ queries, q.dataset_id.isSome = true ∧ q.query.isSome = true) :
    (ParallelQueryExecutor.execute_parallel env queries aw an).isCompleted
        = true ∧
    (ParallelQueryExecutor.execute_parallel env queries aw an).resultsD.length
        = queries.length ∧
    (ParallelQueryExecutor.execute_parallel env queries aw an).totalD
        = queries.length ∧
    (ParallelQueryExecutor.execute_parallel env queries aw an).successfulD
        + (ParallelQueryExecutor.execute_parallel env queries aw an).failedD
        = (ParallelQueryExecutor.execute_parallel env queries aw an).totalD ∧
    ∀ (i : Nat) (r : ParallelQueryExecutor.QueryResult),
      ((ParallelQueryExecutor.execute_parallel env queries aw an).resultsD)[i]?
          = some r →
      r.query_index = i := by
  rw [execute_parallel_completed env queries aw an (by omega) h2 h3]
  refine ⟨rfl, ?_, rfl, ?_, ?_⟩
  · exact batchResults_length env aw an queries
  · show (ParallelQueryExecutor.batchResults env aw an queries).countP _
        + ((ParallelQueryExecutor.batchResults env aw an queries).length
          - (ParallelQueryExecutor.batchResults env aw an queries).countP _)
        = queries.length
    have hle := List.countP_le_length (fun r => r.success)
      (l := ParallelQueryExecutor.batchResults env aw an queries)
    have hlen := batchResults_length env aw an queries
    omega
  · intro i r hr
    simp only [ParallelQueryExecutor.BatchOutcome.resultsD] at hr
    exact batchResults_query_index env aw an queries i r hr

/-- Witness for claim C1: a singleton batch on the demonstration
environment completes with one result. -/
theorem claim_C1_witness :
    (ParallelQueryExecutor.execute_parallel demoExecEnv
        [⟨some 1, some "SELECT 1", none⟩] true true).isCompleted = true ∧
    (ParallelQueryExecutor.execute_parallel demoExecEnv
        [⟨some 1, some "SELECT 1", none⟩] true true).resultsD.length = 1 := by
  have h := claim_C1 demoExecEnv [⟨some 1, some "SELECT 1", none⟩] true true
      (by decide) (by decide) (by decide)
  exact ⟨h.1, h.2.1⟩

/-- Claim C2: a query whose execution fails — unknown dataset, inactive
dataset, credential decryption failure, SQL error on the pooled
connection, or failure of the direct fallback — is captured as a
per-query record with `success = false` and a human-readable error
string; and in an accepted 3-query batch where exactly one submission
position fails, the batch still completes with `failed = 1`,
`successful = 2`, and both sibling positions report `success = true`. -/
theorem claim_C2 :
    (∀ (env : ParallelQueryExecutor.ExecEnv) (aw an : Bool)
        (qd : ParallelQueryExecutor.QueryDef) (i : Nat),
      (env.lookup (qd.dataset_id.getD 0) = none →
        (ParallelQueryExecutor.executeQueryAsync env aw an qd i).success = false ∧
        (ParallelQueryExecutor.executeQueryAsync env aw an qd i).error
          = some "Dataset not found or inactive") ∧
      (∀ ds, env.lookup (qd.dataset_id.getD 0) = some ds →
        ds.is_active = false →
        (ParallelQueryExecutor.executeQueryAsync env aw an qd i).success = false ∧
        (ParallelQueryExecutor.executeQueryAsync env aw an qd i).error
          = some "Dataset not found or inactive") ∧
      (∀ ds e, env.lookup (qd.dataset_id.getD 0) = some ds →
        ds.is_active = true →
        env.decrypt ds.connection_string_encrypted = Except.error e →
        (ParallelQueryExecutor.executeQueryAsync env aw an qd i).success = false ∧
        (ParallelQueryExecutor.executeQueryAsync env aw an qd i).error = some e) ∧
      (∀ ds cs e, env.lookup (qd.dataset_id.getD 0) = some ds →
        ds.is_active = true →
        env.decrypt ds.connection_string_encrypted = Except.ok cs →
        env.pool (qd.dataset_id.getD 0) (normalizeScheme cs) = some () →
        env.fetch (qd.dataset_id.getD 0) (qd.query.getD "") = Except.error e →
        (ParallelQueryExecutor.executeQueryAsync env aw an qd i).success = false ∧
        (ParallelQueryExecutor.executeQueryAsync env aw an qd i).error = some e) ∧
      (∀ ds cs e, env.lookup (qd.dataset_id.getD 0) = some ds →
        ds.is_active = true →
        env.decrypt ds.connection_string_encrypted = Except.ok cs →
        env.pool (qd.dataset_id.getD 0) (normalizeScheme cs) = none →
        env.fetchSync (normalizeScheme cs) (qd.query.getD "") = Except.error e →
        (ParallelQueryExecutor.executeQueryAsync env aw an qd i).success = false ∧
        (ParallelQueryExecutor.executeQueryAsync env aw an qd i).error = some e)) ∧
    (∀ (env : ParallelQueryExecutor.ExecEnv) (aw an : Bool)
        (q0 q1 q2 : ParallelQueryExecutor.QueryDef),
      env.asyncpgAvailable = true →
      (∀ q ∈ [q0, q1, q2],
        q.dataset_id.isSome = true ∧ q.query.isSome = true) →
      ∀ j : Fin 3,
        (ParallelQueryExecutor.executeSingleOutcome env aw an j.val
            ([q0, q1, q2].get ⟨j.val, j.isLt⟩)).success = false →
        (∀ i : Fin 3, i ≠ j →
          (ParallelQueryExecutor.executeSingleOutcome env aw an i.val
              ([q0, q1, q2].get ⟨i.val, i.isLt⟩)).success = true) →
        (ParallelQueryExecutor.execute_parallel env [q0, q1, q2] aw an).isCompleted
            = true ∧
        (ParallelQueryExecutor.execute_parallel env [q0, q1, q2] aw an).failedD
            = 1 ∧
        (ParallelQueryExecutor.execute_parallel env [q0, q1, q2] aw an).successfulD
            = 2 ∧
        (ParallelQueryExecutor.execute_parallel env [q0, q1, q2] aw an).totalD
            = 3 ∧
        ∀ i : Fin 3, i ≠ j →
          (((ParallelQueryExecutor.execute_parallel env [q0, q1, q2] aw
              an).resultsD)[i.val]?).map (fun r => r.success) = some true) := by
  constructor
  · intro env aw an qd i
    refine ⟨?_, ?_, ?_, ?_, ?_⟩
    · intro h1
      have hE : ParallelQueryExecutor.executeQueryAsync env aw an qd i
          = { success := false, error := some "Dataset not found or inactive",
              query_index := i,
              label := qd.label.getD ("Query " ++ Nat.repr (i + 1)) } := by
        simp only [ParallelQueryExecutor.executeQueryAsync, h1]
      rw [hE]
      exact ⟨rfl, rfl⟩
    · intro ds h1 h2
      have hE : ParallelQueryExecutor.executeQueryAsync env aw an qd i
          = { success := false, error := some "Dataset not found or inactive",
              query_index := i,
              label := qd.label.getD ("Query " ++ Nat.repr (i + 1)) } := by
        simp only [ParallelQueryExecutor.executeQueryAsync, h1, h2,
          Bool.not_false, if_true]
      rw [hE]
      exact ⟨rfl, rfl⟩
    · intro ds e h1 h2 h3
      have hE : ParallelQueryExecutor.executeQueryAsync env aw an qd i
          = { success := false, error := some e,
              execution_time_ms := some (env.elapsedMs i),
              query_index := i,
              label := qd.label.getD ("Query " ++ Nat.repr (i + 1)),
              query := some (qd.query.getD "") } := by
        simp only [ParallelQueryExecutor.executeQueryAsync, h1, h2, h3,
          Bool.not_true, Bool.false_eq_true, if_false]
      rw [hE]
      exact ⟨rfl, rfl⟩
    · intro ds cs e h1 h2 h3 h4 h5
      have hE : ParallelQueryExecutor.executeQueryAsync env aw an qd i
          = { success := false, error := some e,
              execution_time_ms := some (env.elapsedMs i),
              query_index := i,
              label := qd.label.getD ("Query " ++ Nat.repr (i + 1)),
              query := some (qd.query.getD "") } := by
        simp only [ParallelQueryExecutor.executeQueryAsync, h1, h2, h3, h4, h5,
          Bool.not_true, Bool.false_eq_true, if_false]
      rw [hE]
      exact ⟨rfl, rfl⟩
    · intro ds cs e h1 h2 h3 h4 h5
      have hE : ParallelQueryExecutor.executeQueryAsync env aw an qd i
          = { success := false, error := some e,
              execution_time_ms := some (env.elapsedMs i),
              query_index := i,
              label := qd.label.getD ("Query " ++ Nat.repr (i + 1)),
              query := some (qd.query.getD "") } := by
        simp only [ParallelQueryExecutor.executeQueryAsync,
          ParallelQueryExecutor.executeQuerySync, h1, h2, h3, h4, h5,
          Bool.not_true, Bool.false_eq_true, if_false]
      rw [hE]
      exact ⟨rfl, rfl⟩
  · intro env aw an q0 q1 q2 hasync h3 j hfail hok
    have hE := execute_parallel_completed env [q0, q1, q2] aw an
      (by simp) (by simp) h3
    have hbr : ParallelQueryExecutor.batchResults env aw an [q0, q1, q2]
        = [ParallelQueryExecutor.executeSingleOutcome env aw an 0 q0,
           ParallelQueryExecutor.executeSingleOutcome env aw an 1 q1,
           ParallelQueryExecutor.executeSingleOutcome env aw an 2 q2] := by
      simp [ParallelQueryExecutor.batchResults, hasync,
        ParallelQueryExecutor.executeAsyncBatch, ParallelQueryExecutor.mapIdxFrom]
    rw [hE]
    simp only [ParallelQueryExecutor.BatchOutcome.isCompleted,
      ParallelQueryExecutor.BatchOutcome.failedD,
      ParallelQueryExecutor.BatchOutcome.successfulD,
      ParallelQueryExecutor.BatchOutcome.totalD,
      ParallelQueryExecutor.BatchOutcome.resultsD]
    rw [hbr]
    rcases j with ⟨jv, hjv⟩
    interval_cases jv
    · have hf0 : (ParallelQueryExecutor.executeSingleOutcome env aw an 0 q0).success
          = false := hfail
      have hs1 : (ParallelQueryExecutor.executeSingleOutcome env aw an 1 q1).success
          = true := hok ⟨1, by omega⟩ (by simp [Fin.ext_iff])
      have hs2 : (ParallelQueryExecutor.executeSingleOutcome env aw an 2 q2).success
          = true := hok ⟨2, by omega⟩ (by simp [Fin.ext_iff])
      have hcount : List.countP (fun r => r.success)
          [ParallelQueryExecutor.executeSingleOutcome env aw an 0 q0,
           ParallelQueryExecutor.executeSingleOutcome env aw an 1 q1,
           ParallelQueryExecutor.executeSingleOutcome env aw an 2 q2] = 2 := by
        simp [List.countP_cons, hf0, hs1, hs2]
      refine ⟨by trivial, ?_, ?_, by trivial, ?_⟩
      · rw [hcount]; rfl
      · rw [hcount]
      · intro i hi
        rcases i with ⟨iv, hiv⟩
        interval_cases iv
        · exact absurd rfl hi
        · simpa using hs1
        · simpa using hs2
    · have hf1 : (ParallelQueryExecutor.executeSingleOutcome env aw an 1 q1).success
          = false := hfail
      have hs0 : (ParallelQueryExecutor.executeSingleOutcome env aw an 0 q0).success
          = true := hok ⟨0, by omega⟩ (by simp [Fin.ext_iff])
      have hs2 : (ParallelQueryExecutor.executeSingleOutcome env aw an 2 q2).success
          = true := hok ⟨2, by omega⟩ (by simp [Fin.ext_iff])
      have hcount : List.countP (fun r => r.success)
          [ParallelQueryExecutor.executeSingleOutcome env aw an 0 q0,
           ParallelQueryExecutor.executeSingleOutcome env aw an 1 q1,
           ParallelQueryExecutor.executeSingleOutcome env aw an 2 q2] = 2 := by
        simp [List.countP_cons, hf1, hs0, hs2]
      refine ⟨by trivial, ?_, ?_, by trivial, ?_⟩
      · rw [hcount]; rfl
      · rw [hcount]
      · intro i hi
        rcases i with ⟨iv, hiv⟩
        interval_cases iv
        · simpa using hs0
        · exact absurd rfl hi
        · simpa using hs2
    · have hf2 : (ParallelQueryExecutor.executeSingleOutcome env aw an 2 q2).success
          = false := hfail
      have hs0 : (ParallelQueryExecutor.executeSingleOutcome env aw an 0 q0).success
          = true := hok ⟨0, by omega⟩ (by simp [Fin.ext_iff])
      have hs1 : (ParallelQueryExecutor.executeSingleOutcome env aw an 1 q1).success
          = true := hok ⟨1, by omega⟩ (by simp [Fin.ext_iff])
      have hcount : List.countP (fun r => r.success)
          [ParallelQueryExecutor.executeSingleOutcome env aw an 0 q0,
           ParallelQueryExecutor.executeSingleOutcome env aw an 1 q1,
           ParallelQueryExecutor.executeSingleOutcome env aw an 2 q2] = 2 := by
        simp [List.countP_cons, hf2, hs0, hs1]
      refine ⟨by trivial, ?_, ?_, by trivial, ?_⟩
      · rw [hcount]; rfl
      · rw [hcount]
      · intro i hi
        rcases i with ⟨iv, hiv⟩
        interval_cases iv
        · simpa using hs0
        · simpa using hs1
        · exact absurd rfl hi
